import Mathlib

/-!
Verification of the UDA-Hub support-ticket orchestration core.

This file is a shallow embedding of the deterministic core of the
repository: the escalation policy and state helpers
(`agentic/state.py`), the knowledge-relevance scorer and knowledge
search (`agentic/tools/knowledge_tools.py`), the user-history cache
(`agentic/memory_manager.py`), the persistence tools
(`agentic/tools/memory_tools.py`) and the workflow entry point
(`agentic/workflow.py`).

Modelling conventions:
* Python strings are `List Char`; `str.lower` is a character-wise map
  (the source data is ASCII), `in` on strings is the infix relation,
  and `str.split()` splits on whitespace runs discarding empties.
* Python floats are modelled as `ℚ`; every constant in the source
  (0.5, 0.15, 0.08, 0.2, 0.1, 1.0) is an exact rational.
* A Python `dict` keyed by strings is an association list with the
  first binding authoritative; assignment replaces the first binding.
* Fallible code returns `Except`; a Python `TypeError` raised by an
  operation on `None` is `PyErr.typeError`.
-/

/-- Python `str.lower()`, character-wise (ASCII data). -/
def pyLower (s : List Char) : List Char := s.map Char.toLower

/-- Python `needle in hay` on strings: substring (infix) test. -/
def pyIn (needle hay : List Char) : Bool := decide (needle <:+: hay)

/-- Worker for `pyWords`: accumulates the current word reversed. -/
def pyWordsAux : List Char → List Char → List (List Char)
  | [], acc => if acc.isEmpty then [] else [acc.reverse]
  | c :: cs, acc =>
    if c.isWhitespace then
      if acc.isEmpty then pyWordsAux cs [] else acc.reverse :: pyWordsAux cs []
    else pyWordsAux cs (c :: acc)

/-- Python `str.split()` with no argument: split on whitespace runs,
no empty words. -/
def pyWords (s : List Char) : List (List Char) := pyWordsAux s []

/-- `str.replace(",", " ")` character map used on tag strings. -/
def commaToSpace (c : Char) : Char := if c = ',' then ' ' else c

/-- Python truthiness of an optional string: `None` and `""` are falsy. -/
def pyTruthyStr : Option (List Char) → Bool
  | none => false
  | some s => !s.isEmpty

/-- Python truthiness of an optional bool: `None` is falsy. -/
def pyTruthyOptBool : Option Bool → Bool
  | none => false
  | some b => b

/-- A knowledge-base article row (`udahub.Knowledge`): `tags` is a
nullable comma-separated string column. -/
structure Article where
  article_id : List Char
  title : List Char
  content : List Char
  tags : Option (List Char)
deriving DecidableEq

/-- `calculate_relevance_score` from `agentic/tools/knowledge_tools.py`
(lines 21-60), translated clause by clause: exact-title substring bonus
0.5, tag-token intersection times 0.15, distinct query words occurring
in the content times 0.08, distinct query words occurring in the title
times 0.2, capped at 1.0. `query_words` is a Python `set`, modelled by
`List.dedup`. -/
def calculate_relevance_score (query : List Char) (article : Article) : ℚ :=
  let query_lower := pyLower query
  let title_lower := pyLower article.title
  let content_lower := pyLower article.content
  let tags_lower : List Char :=
    match article.tags with
    | some t => pyLower t
    | none => []
  let query_words := (pyWords query_lower).dedup
  let exact_title : ℚ := if pyIn query_lower title_lower then 1/2 else 0
  let tag_part : ℚ :=
    if pyTruthyStr article.tags then
      let tag_words := (pyWords (tags_lower.map commaToSpace)).dedup
      ((query_words.filter (fun w => decide (w ∈ tag_words))).length : ℚ) * (15/100)
    else 0
  let content_part : ℚ :=
    ((query_words.filter (fun w => pyIn w content_lower)).length : ℚ) * (8/100)
  let title_part : ℚ :=
    ((query_words.filter (fun w => pyIn w title_lower)).length : ℚ) * (20/100)
  min (exact_title + tag_part + content_part + title_part) 1

/-- The lower-cased deduplicated query word set `Q` of the spec. -/
def queryWordSet (query : List Char) : List (List Char) :=
  (pyWords (pyLower query)).dedup

/-- The article's tag tokens `T` of the spec: tags split on commas and
whitespace; an absent tag string yields no tokens. -/
def tagTokens (article : Article) : List (List Char) :=
  match article.tags with
  | none => []
  | some t => pyWords ((pyLower t).map commaToSpace)

/-- Proof-side companion of `calculate_relevance_score` computing one
hundred times the score in `ℕ` (every weight in the source is a
multiple of 0.01 and the raw sum is nonnegative, so the cap at 1.0
becomes a cap at 100). Used to evaluate concrete scores. -/
def score_nat (query : List Char) (article : Article) : ℕ :=
  let query_lower := pyLower query
  let title_lower := pyLower article.title
  let content_lower := pyLower article.content
  let tags_lower : List Char :=
    match article.tags with
    | some t => pyLower t
    | none => []
  let query_words := (pyWords query_lower).dedup
  let exact_title : ℕ := if pyIn query_lower title_lower then 50 else 0
  let tag_part : ℕ :=
    if pyTruthyStr article.tags then
      let tag_words := (pyWords (tags_lower.map commaToSpace)).dedup
      (query_words.filter (fun w => decide (w ∈ tag_words))).length * 15
    else 0
  let content_part : ℕ :=
    (query_words.filter (fun w => pyIn w content_lower)).length * 8
  let title_part : ℕ :=
    (query_words.filter (fun w => pyIn w title_lower)).length * 20
  min (exact_title + tag_part + content_part + title_part) 100

/-- Round-half-to-even on `ℚ`, the rounding mode of Python `round`. -/
def roundHalfEven (x : ℚ) : ℤ :=
  let f := ⌊x⌋
  if x - f < 1/2 then f
  else if 1/2 < x - f then f + 1
  else if Even f then f else f + 1

/-- Python `round(x, 3)`. -/
def pyRound3 (x : ℚ) : ℚ := (roundHalfEven (x * 1000) : ℚ) / 1000

/-- One entry of the `scored_articles` list built by
`search_knowledge_base`: the article with its rounded relevance score.
`idx` is the article's position in the input list; the Python dict does
not store it, it is ghost data used to state the stable-tie property. -/
structure ScoredArticle where
  idx : ℕ
  article : Article
  relevance_score : ℚ
deriving DecidableEq

/-- The scoring loop of `search_knowledge_base` (knowledge_tools.py
lines 110-121): score every article in input order and keep those with
score strictly above 0.1, storing the score rounded to 3 decimals. -/
def scoredListAux (query : List Char) : ℕ → List Article → List ScoredArticle
  | _, [] => []
  | i, a :: rest =>
    let score := calculate_relevance_score query a
    if 1/10 < score then
      ⟨i, a, pyRound3 score⟩ :: scoredListAux query (i + 1) rest
    else scoredListAux query (i + 1) rest

/-- Articles retained by the relevance filter, in input order. -/
def scoredList (query : List Char) (articles : List Article) : List ScoredArticle :=
  scoredListAux query 0 articles

/-- Stable insert for a descending sort on `relevance_score`: the new
element (earlier in the original list) goes before the first element
whose key is less than or equal to its own. -/
def sortInsert (a : ScoredArticle) : List ScoredArticle → List ScoredArticle
  | [] => [a]
  | b :: l =>
    if b.relevance_score ≤ a.relevance_score then a :: b :: l
    else b :: sortInsert a l

/-- Python `list.sort(key=lambda x: x['relevance_score'], reverse=True)`:
a stable sort by score descending, modelled by stable insertion sort
(any stable sort computes the same list). -/
def sortByScoreDesc : List ScoredArticle → List ScoredArticle
  | [] => []
  | a :: l => sortInsert a (sortByScoreDesc l)

/-- The ranking order the sorted output satisfies: score strictly
descending, ties broken by original input position. -/
def searchRank (a b : ScoredArticle) : Prop :=
  b.relevance_score < a.relevance_score
  ∨ (a.relevance_score = b.relevance_score ∧ a.idx < b.idx)

/-- The structured payload of `search_knowledge_base` (the JSON fields
the workflow consumes). -/
structure SearchResult where
  articles : List ScoredArticle
  confidence : ℚ
  should_escalate_hint : Bool
deriving DecidableEq

/-- Score of the first element of a ranked list, 0 if empty: the
`top_articles[0]['relevance_score'] if top_articles else 0.0` pattern. -/
def searchTopScore : List ScoredArticle → ℚ
  | [] => 0
  | x :: _ => x.relevance_score

/-- `search_knowledge_base` from knowledge_tools.py (lines 100-142),
from the point where the database has produced `all_articles`: empty
result set short-circuits; otherwise score, filter at 0.1, sort by
score descending (stable), take the top 3, and derive `confidence` and
the `should_escalate` hint. -/
def search_knowledge_base (query : List Char) (all_articles : List Article) :
    SearchResult :=
  if all_articles.isEmpty then ⟨[], 0, true⟩
  else
    let top_articles := (sortByScoreDesc (scoredList query all_articles)).take 3
    let confidence := searchTopScore top_articles
    ⟨top_articles, confidence, decide (confidence < 1/2) || top_articles.isEmpty⟩

/-- A conversation message (role, content). -/
structure PyMessage where
  role : List Char
  content : List Char
deriving DecidableEq

/-- `SupportTicketState` from `agentic/state.py`: the TypedDict with
explicit nullability. Opaque sub-dicts (`user_data`,
`subscription_data`, article dicts) are modelled as opaque marks since
the verified code never reads inside them. -/
structure SupportTicketState where
  messages : List PyMessage
  ticket_id : List Char
  user_id : List Char
  channel : List Char
  category : Option (List Char)
  urgency : Option (List Char)
  keywords : Option (List (List Char))
  recommended_agent : Option (List Char)
  knowledge_retrieved : Option Bool
  knowledge_articles : Option (List Article)
  confidence_score : Option ℚ
  account_lookup_performed : Option Bool
  user_data : Option Unit
  subscription_data : Option Unit
  user_is_blocked : Option Bool
  current_step : List Char
  agents_called : List (List Char)
  tools_used : List (List Char)
  requires_escalation : Bool
  escalation_reason : Option (List Char)
  can_auto_resolve : Bool
  status : List Char
  final_response : Option (List Char)
  resolution_summary : Option (List Char)
  timestamp : Option (List Char)
  processing_time : Option ℚ
  error_message : Option (List Char)

/-- `create_initial_state` from `agentic/state.py` (lines 72-138).
`now_iso` stands for `datetime.now().isoformat()`. -/
def create_initial_state (ticket_id user_id user_message : List Char)
    (channel : List Char) (now_iso : List Char) : SupportTicketState where
  messages := [⟨"human".toList, user_message⟩]
  ticket_id := ticket_id
  user_id := user_id
  channel := channel
  category := none
  urgency := none
  keywords := none
  recommended_agent := none
  knowledge_retrieved := some false
  knowledge_articles := none
  confidence_score := none
  account_lookup_performed := some false
  user_data := none
  subscription_data := none
  user_is_blocked := some false
  current_step := "initialized".toList
  agents_called := []
  tools_used := []
  requires_escalation := false
  escalation_reason := none
  can_auto_resolve := true
  status := "processing".toList
  final_response := none
  resolution_summary := none
  timestamp := some now_iso
  processing_time := none
  error_message := none

/-- A raised Python exception relevant to the pure core. -/
inductive PyErr where
  | typeError
deriving DecidableEq

/-- Checks 4 and 5 of `should_escalate` (state.py lines 184-193),
reached when checks 1-3 fall through: critical urgency, then the
refund/billing category with a "refund" keyword; `"refund" in None`
raises `TypeError`. -/
def should_escalate_tail (state : SupportTicketState) : Except PyErr Bool :=
  if state.urgency = some "critical".toList then .ok true
  else if state.category = some "refund".toList ∨ state.category = some "billing".toList then
    match state.keywords with
    | none => .error .typeError
    | some ks => if "refund".toList ∈ ks then .ok true else .ok false
  else .ok false

/-- `should_escalate` from `agentic/state.py` (lines 160-193), with the
source's short-circuit evaluation order. `state.get("confidence_score", 0)`
yields the stored `None` when the key is present, and `None < 0.5`
raises `TypeError`. -/
def should_escalate (state : SupportTicketState) : Except PyErr Bool :=
  if state.requires_escalation then .ok true
  else if pyTruthyOptBool state.user_is_blocked then .ok true
  else if pyTruthyOptBool state.knowledge_retrieved then
    match state.confidence_score with
    | none => .error .typeError
    | some confidence =>
      if confidence < 1/2 then .ok true else should_escalate_tail state
  else should_escalate_tail state

/-- The five escalation conditions as the spec lists them (§4.3):
handler flag, blocked account, knowledge ran with confidence below 0.5,
critical urgency, billing-related category with a "refund" keyword. -/
def EscalationConds (state : SupportTicketState) : Prop :=
  state.requires_escalation = true
  ∨ state.user_is_blocked = some true
  ∨ (state.knowledge_retrieved = some true
      ∧ ∃ c, state.confidence_score = some c ∧ c < 1/2)
  ∨ state.urgency = some "critical".toList
  ∨ ((state.category = some "refund".toList ∨ state.category = some "billing".toList)
      ∧ ∃ ks, state.keywords = some ks ∧ "refund".toList ∈ ks)

/-- A `TicketMetadata` row (status plus optional classification). -/
structure TicketMetadata where
  status : List Char
  main_issue_type : Option (List Char)
deriving DecidableEq

/-- A `Ticket` row with its metadata (nullable one-to-one) and its
ordered message thread. -/
structure TicketRow where
  meta : Option TicketMetadata
  msgs : List PyMessage
deriving DecidableEq

/-- The ticket table: association list keyed by `ticket_id`;
`query(...).filter_by(ticket_id=...).first()` reads the first match. -/
abbrev TicketDB := List (List Char × TicketRow)

/-- `session.query(Ticket).filter_by(ticket_id=tid).first()`. -/
def dbFind (db : TicketDB) (ticket_id : List Char) : Option TicketRow :=
  (db.find? (fun e => decide (e.1 = ticket_id))).map (fun e => e.2)

/-- Commit of an ORM mutation: replace the first row with the key. -/
def dbSetFirst : TicketDB → List Char → TicketRow → TicketDB
  | [], _, _ => []
  | e :: es, ticket_id, row =>
    if e.1 = ticket_id then (ticket_id, row) :: es
    else e :: dbSetFirst es ticket_id row

/-- Status stored for a ticket, if the ticket and its metadata exist. -/
def dbStatus (db : TicketDB) (ticket_id : List Char) : Option (List Char) :=
  match dbFind db ticket_id with
  | none => none
  | some row => row.meta.map (fun m => m.status)

/-- Message thread stored for a ticket. -/
def dbMsgs (db : TicketDB) (ticket_id : List Char) : Option (List PyMessage) :=
  (dbFind db ticket_id).map (fun row => row.msgs)

/-- `update_ticket_status` from `agentic/tools/memory_tools.py`
(lines 171-231): unconditionally overwrite the stored status (creating
the metadata row if absent); `main_issue_type` only overwrites when
truthy. Returns the new table and the JSON `success` flag. -/
def update_ticket_status (db : TicketDB) (ticket_id status : List Char)
    (main_issue_type : Option (List Char)) : TicketDB × Bool :=
  match dbFind db ticket_id with
  | none => (db, false)
  | some row =>
    let meta' : TicketMetadata :=
      match row.meta with
      | none => ⟨status, main_issue_type⟩
      | some m =>
        ⟨status, if pyTruthyStr main_issue_type then main_issue_type else m.main_issue_type⟩
    (dbSetFirst db ticket_id { row with meta := some meta' }, true)

/-- Proof-side name for the metadata row `update_ticket_status`
commits: fresh `⟨status, main_issue_type⟩` when no metadata row
existed, otherwise the old row with the status overwritten and the
issue type overwritten only when truthy. -/
def metaAfterUpdate (old : Option TicketMetadata) (status : List Char)
    (main_issue_type : Option (List Char)) : TicketMetadata :=
  match old with
  | none => ⟨status, main_issue_type⟩
  | some m =>
    ⟨status, if pyTruthyStr main_issue_type then main_issue_type else m.main_issue_type⟩

/-- `add_ticket_message` from `agentic/tools/memory_tools.py`
(lines 235-293): role validation, then append to the thread. -/
def add_ticket_message (db : TicketDB) (ticket_id role content : List Char) :
    TicketDB × Bool :=
  if ¬(role = "ai".toList ∨ role = "agent".toList
      ∨ role = "system".toList ∨ role = "user".toList) then (db, false)
  else
    match dbFind db ticket_id with
    | none => (db, false)
    | some row =>
      (dbSetFirst db ticket_id { row with msgs := row.msgs ++ [⟨role, content⟩] }, true)

/-- Result of one `invoke_ticket` run: the text returned to the caller,
the ticket table after the persistence block, and how many times the
supervisor collaborator was invoked during the run. -/
structure InvokeResult where
  final_text : List Char
  db : TicketDB
  supervisor_calls : ℕ
deriving DecidableEq

/-- `invoke_ticket` from `agentic/workflow.py` (lines 86-128). The
supervisor is an external collaborator: its rendered output
`str(result)` is the parameter `supervisor_output` (history enrichment
only alters the opaque prompt). The run unconditionally invokes the
supervisor once, appends the output as an "ai" message, and overwrites
the status with "escalated" or "resolved" by keyword detection. -/
def invoke_ticket (db : TicketDB) (supervisor_output : List Char)
    (ticket_id : List Char) : InvokeResult :=
  let final_text := supervisor_output
  let db1 := (add_ticket_message db ticket_id "ai".toList final_text).1
  let status :=
    if pyIn "escalat".toList (pyLower final_text)
        || pyIn "billing team".toList (pyLower final_text)
    then "escalated".toList else "resolved".toList
  let db2 := (update_ticket_status db1 ticket_id status none).1
  ⟨final_text, db2, 1⟩

/-- The `found`/`tickets`/`error` fields of the history payloads built
by `get_user_ticket_history`; ticket digests are opaque rendered
records. -/
structure HistoryPayload where
  found : Bool
  tickets : List (List Char)
  error : Option (List Char)
deriving DecidableEq

/-- `get_user_ticket_history` from `agentic/tools/memory_tools.py`
(lines 24-106) as a function of the database outcome: a raised
database exception is caught and converted to a `found=False` payload
with an error string (lines 101-106); an unknown user yields
`found=False`; otherwise the most recent tickets, limited. -/
def get_user_ticket_history
    (db_outcome : Except (List Char) (Option (List (List Char))))
    (limit : ℕ) : HistoryPayload :=
  match db_outcome with
  | .error e => ⟨false, [], some ("Error retrieving ticket history: ".toList ++ e)⟩
  | .ok none => ⟨false, [], none⟩
  | .ok (some tickets) => ⟨true, tickets.take limit, none⟩

/-- The in-memory cache `MemoryManager.memory_cache`: a dict from the
rendered cache key to `(payload, fetched_at)`; timestamps are whole
seconds. -/
abbrev HistoryCache := List (List Char × HistoryPayload × ℕ)

/-- The f-string cache key `f"user_history_{user_id}_{limit}"`. -/
def history_cache_key (user_id : List Char) (limit : ℕ) : List Char :=
  "user_history_".toList ++ user_id ++ "_".toList ++ Nat.toDigits 10 limit

/-- `(datetime.now() - cached_time).seconds` for whole-second
timestamps: `timedelta.seconds` is the seconds component after the
days are split off, so it wraps at one day. -/
def pyTimedeltaSeconds (now fetched : ℕ) : ℕ := (now - fetched) % 86400

/-- Dict assignment `cache[key] = value`: replace the binding or append. -/
def cacheSet : HistoryCache → List Char → HistoryPayload × ℕ → HistoryCache
  | [], key, v => [(key, v.1, v.2)]
  | e :: es, key, v =>
    if e.1 = key then (key, v.1, v.2) :: es else e :: cacheSet es key v

/-- Outcome of one `get_user_history` call: the returned payload, the
cache afterwards, and how many upstream fetch attempts were made. -/
structure GetResult where
  payload : HistoryPayload
  cache : HistoryCache
  upstream_fetches : ℕ
deriving DecidableEq

/-- `MemoryManager.get_user_history` from `agentic/memory_manager.py`
(lines 83-131): serve the cached payload when the entry's
`timedelta.seconds` age is under 300; otherwise fetch upstream
(`upstream` is the outcome of `get_user_ticket_history.invoke` plus
`json.loads`, which the `except` converts to a `found=False` payload
without caching); successful fetches are cached with the current time. -/
def get_user_history (cache : HistoryCache) (user_id : List Char) (limit : ℕ)
    (now : ℕ) (upstream : Except (List Char) HistoryPayload) : GetResult :=
  let key := history_cache_key user_id limit
  let fetch : GetResult :=
    match upstream with
    | .ok payload => ⟨payload, cacheSet cache key (payload, now), 1⟩
    | .error e => ⟨⟨false, [], some e⟩, cache, 1⟩
  match cache.find? (fun e => decide (e.1 = key)) with
  | some entry =>
    if pyTimedeltaSeconds now entry.2.2 < 300 then ⟨entry.2.1, cache, 0⟩
    else fetch
  | none => fetch

/-- `MemoryManager.store_interaction` from `agentic/memory_manager.py`
(lines 190-239): update the ticket status (with the category as issue
type), append the resolution message, then drop every cache entry
whose key contains `user_id` as a substring. The modelled tools return
instead of raising, so the success path always completes. -/
def store_interaction (db : TicketDB) (cache : HistoryCache)
    (ticket_id user_id category resolution status : List Char) :
    TicketDB × HistoryCache × Bool :=
  let db1 := (update_ticket_status db ticket_id status (some category)).1
  let db2 := (add_ticket_message db1 ticket_id "ai".toList
    ("Resolution: ".toList ++ resolution)).1
  let cache' := cache.filter (fun e => !(pyIn user_id e.1))
  (db2, cache', true)

/-- Boolean exact-title test of the scorer: whole lower-cased query as
a substring of the lower-cased title. -/
def relExact (query : List Char) (article : Article) : Bool :=
  pyIn (pyLower query) (pyLower article.title)

/-- The scorer's deduplicated tag token set `tag_words`. -/
def relTagWords (article : Article) : List (List Char) :=
  (pyWords ((match article.tags with
    | some t => pyLower t
    | none => []).map commaToSpace)).dedup

/-- `tag_matches`: size of the query-word/tag-word set intersection. -/
def relTagCount (query : List Char) (article : Article) : ℕ :=
  ((queryWordSet query).filter (fun w => decide (w ∈ relTagWords article))).length

/-- `content_matches`: distinct query words occurring in the content. -/
def relContentCount (query : List Char) (article : Article) : ℕ :=
  ((queryWordSet query).filter (fun w => pyIn w (pyLower article.content))).length

/-- `title_matches`: distinct query words occurring in the title. -/
def relTitleCount (query : List Char) (article : Article) : ℕ :=
  ((queryWordSet query).filter (fun w => pyIn w (pyLower article.title))).length

/-- C1 counterexample state: an otherwise fresh ticket classified as
billing with low urgency, keywords still `None`. -/
def stateC1cex : SupportTicketState :=
  { create_initial_state "t1".toList "u1".toList "I was charged twice".toList
      "chat".toList "2026-01-01T00:00:00".toList with
    category := some "billing".toList
    urgency := some "low".toList }

/-- C1 witness state: a fresh ticket whose handler already set the
escalation flag. -/
def stateC1wit : SupportTicketState :=
  { create_initial_state "t2".toList "u2".toList "hello".toList
      "chat".toList "2026-01-01T00:00:00".toList with
    requires_escalation := true }

/-- C5 failing state: the knowledge stage is marked as run but
`confidence_score` is still `None`, as after an update that sets only
`knowledge_retrieved`. -/
def stateC5fail : SupportTicketState :=
  { create_initial_state "t3".toList "u3".toList "login broken".toList
      "chat".toList "2026-01-01T00:00:00".toList with
    knowledge_retrieved := some true }

/-- C2: payload cached one day earlier. -/
def payloadOld : HistoryPayload := ⟨true, ["old-digest".toList], none⟩

/-- C2: payload the upstream would return now. -/
def payloadNew : HistoryPayload := ⟨true, ["new-digest".toList], none⟩

/-- C2: cache holding an entry for user "u1", limit 5, fetched at
time 0. -/
def cacheC2 : HistoryCache := [(history_cache_key "u1".toList 5, payloadOld, 0)]

/-- C4 counterexample article: relevance 0.08 for the query "reset"
(one content-word match only). -/
def articleC4 : Article :=
  ⟨"a1".toList, "x".toList, "reset please".toList, none⟩

/-- C6 counterexample table: ticket "t1" already resolved. -/
def dbC6 : TicketDB := [("t1".toList, ⟨some ⟨"resolved".toList, none⟩, []⟩)]

/-- C7 counterexample table: ticket "t7" with no metadata and no
messages yet. -/
def dbC7 : TicketDB := [("t7".toList, ⟨none, []⟩)]

/-- C8 counterexample article: its title already contains the query
"a", so appending the query again changes nothing. -/
def articleC8 : Article := ⟨"a8".toList, "a".toList, "".toList, none⟩

theorem calculate_relevance_score_formula (q : List Char) (a : Article) :
    calculate_relevance_score q a =
      min ((if relExact q a then (1:ℚ)/2 else 0)
        + (if pyTruthyStr a.tags then (relTagCount q a : ℚ) * (15/100) else 0)
        + (relContentCount q a : ℚ) * (8/100)
        + (relTitleCount q a : ℚ) * (20/100)) 1 := rfl

theorem score_nat_formula (q : List Char) (a : Article) :
    score_nat q a =
      min ((if relExact q a then 50 else 0)
        + (if pyTruthyStr a.tags then relTagCount q a * 15 else 0)
        + relContentCount q a * 8
        + relTitleCount q a * 20) 100 := rfl

theorem calculate_relevance_score_as_nat (q : List Char) (a : Article) :
    calculate_relevance_score q a = (score_nat q a : ℚ) / 100 := by
  rw [calculate_relevance_score_formula, score_nat_formula]
  generalize relTagCount q a = n1
  generalize relContentCount q a = n2
  generalize relTitleCount q a = n3
  cases relExact q a <;> cases pyTruthyStr a.tags <;>
  · simp only [if_true, if_false, Bool.false_eq_true, ite_true, ite_false]
    rw [Nat.cast_min, ← min_div_div_right (show (0:ℚ) ≤ 100 by norm_num)]
    norm_num
    congr 1
    push_cast
    ring

theorem pyIn_eq_true_iff {n h : List Char} : pyIn n h = true ↔ n <:+: h := by
  simp [pyIn]

theorem relevance_tag_part_eq (q : List Char) (a : Article) :
    (if pyTruthyStr a.tags then (relTagCount q a : ℚ) * (15/100) else 0)
      = (((queryWordSet q).filter (fun w => decide (w ∈ tagTokens a))).length : ℚ) * (15/100) := by
  rcases ht : a.tags with _ | t
  · simp [pyTruthyStr, tagTokens, ht]
  · rcases t with _ | ⟨c, cs⟩
    · simp [pyTruthyStr, tagTokens, ht, pyLower, pyWords, pyWordsAux]
    · have hcount : relTagCount q a
          = ((queryWordSet q).filter (fun w => decide (w ∈ tagTokens a))).length := by
        unfold relTagCount relTagWords tagTokens
        rw [ht]
        congr 1
        apply List.filter_congr
        intro w _
        simp [List.mem_dedup]
      simp [pyTruthyStr, ht, hcount]

theorem relevance_spec_sum_nonneg (q : List Char) (a : Article) :
    0 ≤ (if pyIn (pyLower q) (pyLower a.title) then (1:ℚ)/2 else 0)
      + (((queryWordSet q).filter (fun w => decide (w ∈ tagTokens a))).length : ℚ) * (15/100)
      + (relContentCount q a : ℚ) * (8/100)
      + (relTitleCount q a : ℚ) * (20/100) := by
  have h1 : (0:ℚ) ≤ if pyIn (pyLower q) (pyLower a.title) then (1:ℚ)/2 else 0 := by
    split <;> norm_num
  have h2 : (0:ℚ) ≤ (((queryWordSet q).filter
      (fun w => decide (w ∈ tagTokens a))).length : ℚ) * (15/100) :=
    mul_nonneg (Nat.cast_nonneg _) (by norm_num)
  have h3 : (0:ℚ) ≤ (relContentCount q a : ℚ) * (8/100) :=
    mul_nonneg (Nat.cast_nonneg _) (by norm_num)
  have h4 : (0:ℚ) ≤ (relTitleCount q a : ℚ) * (20/100) :=
    mul_nonneg (Nat.cast_nonneg _) (by norm_num)
  linarith

theorem relevance_score_spec_eq (q : List Char) (a : Article) :
    calculate_relevance_score q a
      = min ((if pyIn (pyLower q) (pyLower a.title) then (1:ℚ)/2 else 0)
        + (((queryWordSet q).filter (fun w => decide (w ∈ tagTokens a))).length : ℚ) * (15/100)
        + (relContentCount q a : ℚ) * (8/100)
        + (relTitleCount q a : ℚ) * (20/100)) 1 := by
  rw [calculate_relevance_score_formula, relevance_tag_part_eq]
  simp only [relExact]

/-- C3: for every query and article the scorer returns exactly the
spec's additive formula — 0.5 for the whole lower-cased query occurring
in the lower-cased title, plus 0.15 per query word among the tag
tokens, plus 0.08 per query word in the content, plus 0.2 per query
word in the title — clamped to [0, 1] (the sum is nonnegative, so the
clamp is the 1.0 cap); in particular the score always lies in [0, 1]. -/
theorem relevance_score_matches_spec (q : List Char) (a : Article) :
    calculate_relevance_score q a
      = max 0 (min ((if pyIn (pyLower q) (pyLower a.title) then (1:ℚ)/2 else 0)
          + (((queryWordSet q).filter (fun w => decide (w ∈ tagTokens a))).length : ℚ) * (15/100)
          + (relContentCount q a : ℚ) * (8/100)
          + (relTitleCount q a : ℚ) * (20/100)) 1)
    ∧ 0 ≤ calculate_relevance_score q a ∧ calculate_relevance_score q a ≤ 1 := by
  have hnn := relevance_spec_sum_nonneg q a
  have hmin : (0:ℚ) ≤ min ((if pyIn (pyLower q) (pyLower a.title) then (1:ℚ)/2 else 0)
      + (((queryWordSet q).filter (fun w => decide (w ∈ tagTokens a))).length : ℚ) * (15/100)
      + (relContentCount q a : ℚ) * (8/100)
      + (relTitleCount q a : ℚ) * (20/100)) 1 := le_min hnn zero_le_one
  refine ⟨?_, ?_, ?_⟩
  · rw [relevance_score_spec_eq, max_eq_right hmin]
  · rw [relevance_score_spec_eq]; exact hmin
  · rw [relevance_score_spec_eq]; exact min_le_right _ _

theorem relevance_appended_title_exact (q : List Char) (a : Article) :
    relExact q { a with title := a.title ++ q } = true := by
  unfold relExact
  rw [pyIn_eq_true_iff]
  show pyLower q <:+: pyLower (a.title ++ q)
  unfold pyLower
  rw [List.map_append]
  exact (List.suffix_append _ _).isInfix

theorem relevance_title_count_mono (q : List Char) (a : Article) :
    relTitleCount q a ≤ relTitleCount q { a with title := a.title ++ q } := by
  unfold relTitleCount
  apply List.Sublist.length_le
  apply List.monotone_filter_right
  intro w hw
  rw [pyIn_eq_true_iff] at hw ⊢
  show w <:+: pyLower (a.title ++ q)
  unfold pyLower
  rw [List.map_append]
  exact hw.trans (List.prefix_append _ _).isInfix

/-- C8 (amended): when the lower-cased query is not already a
substring of the lower-cased title, appending a verbatim copy of the
query to the title strictly increases the relevance score or caps it
at 1.0. (The restriction is forced: if the title already contains the
query, appending it again can leave the score unchanged below 1.) -/
theorem relevance_append_strict_or_capped (q : List Char) (a : Article)
    (h : pyIn (pyLower q) (pyLower a.title) = false) :
    calculate_relevance_score q a
        < calculate_relevance_score q { a with title := a.title ++ q }
    ∨ calculate_relevance_score q { a with title := a.title ++ q } = 1 := by
  have hexact : relExact q a = false := h
  have hexact' := relevance_appended_title_exact q a
  have htags : ({ a with title := a.title ++ q } : Article).tags = a.tags := rfl
  have htag : relTagCount q { a with title := a.title ++ q } = relTagCount q a := rfl
  have hcontent : relContentCount q { a with title := a.title ++ q }
      = relContentCount q a := rfl
  have htitle := relevance_title_count_mono q a
  have key : ∀ T C x y : ℚ, x ≤ y →
      min (0 + T + C + x * (20/100)) 1 < min (1/2 + T + C + y * (20/100)) 1
      ∨ min (1/2 + T + C + y * (20/100)) 1 = 1 := by
    intro T C x y hxy
    rcases le_or_lt 1 (1/2 + T + C + y * (20/100)) with h1 | h1
    · exact Or.inr (min_eq_right h1)
    · left
      rw [min_eq_left h1.le]
      have h2 : min (0 + T + C + x * (20/100)) 1 ≤ 0 + T + C + x * (20/100) :=
        min_le_left _ _
      linarith
  rw [calculate_relevance_score_formula q a,
    calculate_relevance_score_formula q { a with title := a.title ++ q },
    hexact, hexact', htags, htag, hcontent,
    if_neg Bool.false_ne_true, if_pos rfl]
  exact key _ _ _ _ (by exact_mod_cast htitle)

/-- C8 witness: for the query "reset" and an article titled
"login help" (which does not contain the query), the amended theorem
applies. -/
theorem relevance_append_strict_or_capped_witness :
    pyIn (pyLower "reset".toList) (pyLower ("login help".toList)) = false
    ∧ (calculate_relevance_score "reset".toList
          (⟨"w8".toList, "login help".toList, "".toList, none⟩ : Article)
        < calculate_relevance_score "reset".toList
          { (⟨"w8".toList, "login help".toList, "".toList, none⟩ : Article) with
            title := "login help".toList ++ "reset".toList }
      ∨ calculate_relevance_score "reset".toList
          { (⟨"w8".toList, "login help".toList, "".toList, none⟩ : Article) with
            title := "login help".toList ++ "reset".toList } = 1) :=
  ⟨by decide, relevance_append_strict_or_capped "reset".toList
    ⟨"w8".toList, "login help".toList, "".toList, none⟩ (by decide)⟩

/-- C8 counterexample to the unrestricted claim: for the query "a" and
an article already titled "a", appending a verbatim copy of the query
to the title leaves the score at exactly 0.7 — neither a strict
increase nor the 1.0 cap. -/
theorem relevance_append_identical_cex :
    calculate_relevance_score "a".toList
        { articleC8 with title := articleC8.title ++ "a".toList }
      = calculate_relevance_score "a".toList articleC8
    ∧ calculate_relevance_score "a".toList articleC8 ≠ 1 := by
  have h1 : calculate_relevance_score "a".toList articleC8 = 70/100 := by
    rw [calculate_relevance_score_as_nat,
      show score_nat "a".toList articleC8 = 70 from by decide]
    norm_num
  have h2 : calculate_relevance_score "a".toList
      { articleC8 with title := articleC8.title ++ "a".toList } = 70/100 := by
    rw [calculate_relevance_score_as_nat,
      show score_nat "a".toList
        { articleC8 with title := articleC8.title ++ "a".toList } = 70 from by decide]
    norm_num
  refine ⟨h2.trans h1.symm, ?_⟩
  rw [h1]
  norm_num

theorem pyTruthyOptBool_eq_true_iff (o : Option Bool) :
    pyTruthyOptBool o = true ↔ o = some true := by
  cases o with
  | none => simp [pyTruthyOptBool]
  | some b => simp [pyTruthyOptBool]

theorem should_escalate_tail_ok_iff (s : SupportTicketState) (b : Bool)
    (h : should_escalate_tail s = Except.ok b) :
    b = true ↔ (s.urgency = some "critical".toList
      ∨ ((s.category = some "refund".toList ∨ s.category = some "billing".toList)
          ∧ ∃ ks, s.keywords = some ks ∧ "refund".toList ∈ ks)) := by
  unfold should_escalate_tail at h
  by_cases h4 : s.urgency = some "critical".toList
  · rw [if_pos h4] at h
    obtain rfl : b = true := by simpa using h.symm
    exact iff_of_true rfl (Or.inl h4)
  · rw [if_neg h4] at h
    by_cases h5 : s.category = some "refund".toList ∨ s.category = some "billing".toList
    · rw [if_pos h5] at h
      cases hk : s.keywords with
      | none => rw [hk] at h; simp at h
      | some ks =>
        rw [hk] at h
        dsimp only at h
        by_cases h6 : "refund".toList ∈ ks
        · rw [if_pos h6] at h
          obtain rfl : b = true := by simpa using h.symm
          exact iff_of_true rfl (Or.inr ⟨h5, ks, rfl, h6⟩)
        · rw [if_neg h6] at h
          obtain rfl : b = false := by simpa using h.symm
          refine iff_of_false (by simp) ?_
          rintro (h4' | ⟨_, ks', hk', h6'⟩)
          · exact h4 h4'
          · obtain rfl : ks = ks' := by simpa using hk'
            exact h6 h6'
    · rw [if_neg h5] at h
      obtain rfl : b = false := by simpa using h.symm
      refine iff_of_false (by simp) ?_
      rintro (h4' | ⟨h5', _⟩)
      · exact h4 h4'
      · exact h5 h5'

/-- C1 (amended): whenever `should_escalate` returns a boolean (it can
also raise `TypeError` on `None` fields, see the counterexample), that
boolean is true if and only if one of the five spec conditions holds —
handler escalation flag, blocked user, knowledge stage run with
confidence below 0.5, critical urgency, or a refund/billing category
with a "refund" keyword — and false when none of them holds. -/
theorem should_escalate_ok_iff (s : SupportTicketState) (b : Bool)
    (h : should_escalate s = Except.ok b) :
    b = true ↔ EscalationConds s := by
  unfold should_escalate at h
  by_cases h1 : s.requires_escalation
  · rw [if_pos h1] at h
    obtain rfl : b = true := by simpa using h.symm
    exact iff_of_true rfl (Or.inl (by simpa using h1))
  · rw [if_neg h1] at h
    by_cases h2 : pyTruthyOptBool s.user_is_blocked = true
    · rw [if_pos h2] at h
      obtain rfl : b = true := by simpa using h.symm
      exact iff_of_true rfl (Or.inr (Or.inl ((pyTruthyOptBool_eq_true_iff _).mp h2)))
    · rw [if_neg h2] at h
      by_cases h3 : pyTruthyOptBool s.knowledge_retrieved = true
      · rw [if_pos h3] at h
        cases hc : s.confidence_score with
        | none => rw [hc] at h; simp at h
        | some c =>
          rw [hc] at h
          dsimp only at h
          by_cases hlt : c < 1/2
          · rw [if_pos hlt] at h
            obtain rfl : b = true := by simpa using h.symm
            exact iff_of_true rfl (Or.inr (Or.inr (Or.inl
              ⟨(pyTruthyOptBool_eq_true_iff _).mp h3, c, hc, hlt⟩)))
          · rw [if_neg hlt] at h
            rw [should_escalate_tail_ok_iff s b h]
            unfold EscalationConds
            constructor
            · rintro (h4 | h5)
              · exact Or.inr (Or.inr (Or.inr (Or.inl h4)))
              · exact Or.inr (Or.inr (Or.inr (Or.inr h5)))
            · rintro (h1' | h2' | ⟨_, c', hc', hlt'⟩ | h4 | h5)
              · exact absurd h1' h1
              · exact absurd ((pyTruthyOptBool_eq_true_iff _).mpr h2') h2
              · rw [hc] at hc'
                obtain rfl : c = c' := by simpa using hc'
                exact absurd hlt' hlt
              · exact Or.inl h4
              · exact Or.inr h5
      · rw [if_neg h3] at h
        rw [should_escalate_tail_ok_iff s b h]
        unfold EscalationConds
        constructor
        · rintro (h4 | h5)
          · exact Or.inr (Or.inr (Or.inr (Or.inl h4)))
          · exact Or.inr (Or.inr (Or.inr (Or.inr h5)))
        · rintro (h1' | h2' | ⟨hkr, _⟩ | h4 | h5)
          · exact absurd h1' h1
          · exact absurd ((pyTruthyOptBool_eq_true_iff _).mpr h2') h2
          · exact absurd ((pyTruthyOptBool_eq_true_iff _).mpr hkr) h3
          · exact Or.inl h4
          · exact Or.inr h5

/-- C1 witness: on a fresh ticket whose handler set the escalation
flag, `should_escalate` returns `ok true` and the theorem yields the
disjunction of conditions. -/
theorem should_escalate_ok_iff_witness : EscalationConds stateC1wit :=
  (should_escalate_ok_iff stateC1wit true rfl).mp rfl

/-- C1 counterexample to the unrestricted claim: a ticket classified
as billing with `keywords` still `None` satisfies none of the five
conditions, yet `should_escalate` raises `TypeError`
(`"refund" in None`) instead of returning false. -/
theorem should_escalate_raises_cex :
    should_escalate stateC1cex = Except.error PyErr.typeError
    ∧ ¬ EscalationConds stateC1cex := by
  constructor
  · rfl
  · rintro (h1 | h2 | ⟨h3, _⟩ | h4 | ⟨_, ks, hk, _⟩)
    · exact absurd h1 (by decide)
    · exact absurd h2 (by decide)
    · exact absurd h3 (by decide)
    · exact absurd h4 (by decide)
    · rw [show stateC1cex.keywords = none from rfl] at hk
      exact Option.noConfusion hk

/-- C5: `should_escalate` is not total on well-formed states — on a
state whose knowledge stage is marked as run while `confidence_score`
is still `None` (the `.get("confidence_score", 0)` default does not
apply to a present `None`), the comparison `None < 0.5` raises
`TypeError`, contradicting the spec's claim that the pure components
never fail. -/
theorem should_escalate_raises_on_null_confidence :
    should_escalate stateC5fail = Except.error PyErr.typeError := rfl

/-- C2: the TTL check uses `timedelta.seconds`, which wraps at one
day, so an entry fetched one day and one minute ago (86460 s) is
served from the cache with no upstream fetch — contradicting the
code's own comment "Use cache if less than 5 minutes old" and the
spec's invariant that entries aged 5 minutes or more are never
served. -/
theorem get_user_history_serves_day_old_entry :
    get_user_history cacheC2 "u1".toList 5 86460 (Except.ok payloadNew)
      = ⟨payloadOld, cacheC2, 0⟩ ∧ payloadOld ≠ payloadNew := by
  constructor
  · rfl
  · decide

theorem user_id_infix_history_cache_key (u : List Char) (limit : ℕ) :
    pyIn u (history_cache_key u limit) = true := by
  rw [pyIn_eq_true_iff]
  refine ⟨"user_history_".toList, "_".toList ++ Nat.toDigits 10 limit, ?_⟩
  simp [history_cache_key]

/-- C9: after the cache invalidation performed by `store_interaction`
(which deletes every key containing the user id), no cache entry keyed
for that user remains — for any limit — and the next `get_user_history`
for that user performs exactly one upstream fetch instead of serving a
pre-write cached value. -/
theorem store_interaction_invalidates_user_cache
    (db : TicketDB) (cache : HistoryCache)
    (tid u cat res st : List Char) (limit : ℕ) (now : ℕ)
    (upstream : Except (List Char) HistoryPayload) :
    ((store_interaction db cache tid u cat res st).2.1.find?
        (fun e => decide (e.1 = history_cache_key u limit)) = none)
    ∧ (get_user_history (store_interaction db cache tid u cat res st).2.1
        u limit now upstream).upstream_fetches = 1 := by
  have hnone : ((store_interaction db cache tid u cat res st).2.1.find?
      (fun e => decide (e.1 = history_cache_key u limit)) = none) := by
    rw [List.find?_eq_none]
    intro x hx
    have hmem := (List.mem_filter.mp hx).2
    intro hp
    have hx1 : x.1 = history_cache_key u limit := of_decide_eq_true hp
    rw [hx1] at hmem
    rw [user_id_infix_history_cache_key] at hmem
    simp at hmem
  refine ⟨hnone, ?_⟩
  simp only [get_user_history]
  rw [hnone]
  cases upstream <;> rfl

theorem find?_cacheSet (c : HistoryCache) (key : List Char) (v : HistoryPayload × ℕ) :
    (cacheSet c key v).find? (fun e => decide (e.1 = key)) = some (key, v.1, v.2) := by
  induction c with
  | nil => simp [cacheSet]
  | cons e es ih =>
    by_cases he : e.1 = key
    · simp [cacheSet, he]
    · simp only [cacheSet, if_neg he]
      rw [List.find?_cons_of_neg _ (by simp [he])]
      exact ih

/-- C10: when the database fetch inside `get_user_ticket_history`
raises, the tool converts the error into a found=false empty-history
payload; `get_user_history` caches that failure payload exactly like a
success, so a subsequent call for the same (user, limit) within the
5-minute window returns the cached failure with no new upstream
fetch. -/
theorem get_user_history_caches_failure
    (cache : HistoryCache) (u : List Char) (limit : ℕ) (now now2 : ℕ)
    (e : List Char) (upstream2 : Except (List Char) HistoryPayload)
    (hcold : cache.find? (fun en => decide (en.1 = history_cache_key u limit)) = none)
    (hle : now ≤ now2) (hlt : now2 - now < 300) :
    (get_user_ticket_history (Except.error e) limit).found = false
    ∧ (get_user_ticket_history (Except.error e) limit).tickets = []
    ∧ (get_user_history cache u limit now
        (Except.ok (get_user_ticket_history (Except.error e) limit))).payload
        = get_user_ticket_history (Except.error e) limit
    ∧ (get_user_history cache u limit now
        (Except.ok (get_user_ticket_history (Except.error e) limit))).upstream_fetches = 1
    ∧ (get_user_history (get_user_history cache u limit now
          (Except.ok (get_user_ticket_history (Except.error e) limit))).cache
        u limit now2 upstream2).payload
        = get_user_ticket_history (Except.error e) limit
    ∧ (get_user_history (get_user_history cache u limit now
          (Except.ok (get_user_ticket_history (Except.error e) limit))).cache
        u limit now2 upstream2).upstream_fetches = 0 := by
  have hr1 : get_user_history cache u limit now
      (Except.ok (get_user_ticket_history (Except.error e) limit))
      = ⟨get_user_ticket_history (Except.error e) limit,
          cacheSet cache (history_cache_key u limit)
            (get_user_ticket_history (Except.error e) limit, now), 1⟩ := by
    simp only [get_user_history]
    rw [hcold]
  have hfresh : pyTimedeltaSeconds now2 now < 300 := by
    unfold pyTimedeltaSeconds
    rw [Nat.mod_eq_of_lt (lt_of_lt_of_le hlt (by norm_num))]
    exact hlt
  have hr2 : get_user_history (cacheSet cache (history_cache_key u limit)
        (get_user_ticket_history (Except.error e) limit, now))
      u limit now2 upstream2
      = ⟨get_user_ticket_history (Except.error e) limit,
          cacheSet cache (history_cache_key u limit)
            (get_user_ticket_history (Except.error e) limit, now), 0⟩ := by
    simp only [get_user_history]
    rw [find?_cacheSet]
    simp only [if_pos hfresh]
  refine ⟨rfl, rfl, ?_, ?_, ?_, ?_⟩ <;> rw [hr1] <;> try rfl
  · rw [hr2]
  · rw [hr2]

/-- C10 witness: concrete run on an empty cache with a database error
"db down", second call 100 seconds later. -/
theorem get_user_history_caches_failure_witness :
    (get_user_ticket_history (Except.error "db down".toList) 3).found = false
    ∧ (get_user_ticket_history (Except.error "db down".toList) 3).tickets = []
    ∧ (get_user_history [] "u9".toList 3 0
        (Except.ok (get_user_ticket_history (Except.error "db down".toList) 3))).payload
        = get_user_ticket_history (Except.error "db down".toList) 3
    ∧ (get_user_history [] "u9".toList 3 0
        (Except.ok (get_user_ticket_history (Except.error "db down".toList) 3))).upstream_fetches = 1
    ∧ (get_user_history (get_user_history [] "u9".toList 3 0
          (Except.ok (get_user_ticket_history (Except.error "db down".toList) 3))).cache
        "u9".toList 3 100 (Except.ok ⟨true, [], none⟩)).payload
        = get_user_ticket_history (Except.error "db down".toList) 3
    ∧ (get_user_history (get_user_history [] "u9".toList 3 0
          (Except.ok (get_user_ticket_history (Except.error "db down".toList) 3))).cache
        "u9".toList 3 100 (Except.ok ⟨true, [], none⟩)).upstream_fetches = 0 :=
  get_user_history_caches_failure [] "u9".toList 3 0 100 "db down".toList
    (Except.ok ⟨true, [], none⟩) rfl (by decide) (by decide)

theorem dbFind_cons (e : List Char × TicketRow) (es : TicketDB) (tid : List Char) :
    dbFind (e :: es) tid = if e.1 = tid then some e.2 else dbFind es tid := by
  by_cases he : e.1 = tid
  · simp [dbFind, he]
  · simp [dbFind, he]

theorem dbFind_dbSetFirst (db : TicketDB) (tid : List Char) (row₀ row' : TicketRow)
    (h : dbFind db tid = some row₀) :
    dbFind (dbSetFirst db tid row') tid = some row' := by
  induction db with
  | nil => simp [dbFind] at h
  | cons e es ih =>
    by_cases he : e.1 = tid
    · simp only [dbSetFirst, if_pos he]
      rw [dbFind_cons]
      simp
    · simp only [dbSetFirst, if_neg he]
      rw [dbFind_cons, if_neg he]
      rw [dbFind_cons, if_neg he] at h
      exact ih h

theorem add_ticket_message_ai (db : TicketDB) (tid content : List Char)
    (row : TicketRow) (h : dbFind db tid = some row) :
    add_ticket_message db tid "ai".toList content
      = (dbSetFirst db tid ⟨row.meta, row.msgs ++ [⟨"ai".toList, content⟩]⟩, true) := by
  unfold add_ticket_message
  rw [if_neg (by simp), h]

theorem update_ticket_status_found (db : TicketDB) (tid st : List Char)
    (mit : Option (List Char)) (row : TicketRow) (h : dbFind db tid = some row) :
    update_ticket_status db tid st mit
      = (dbSetFirst db tid ⟨some (metaAfterUpdate row.meta st mit), row.msgs⟩, true) := by
  unfold update_ticket_status metaAfterUpdate
  rw [h]

/-- C6 (amended): `update_ticket_status` performs an unconditional
overwrite — for every stored ticket, including one whose status is
terminal (resolved/escalated/failed), the call succeeds and the stored
status becomes exactly the requested value; no guard prevents leaving
a terminal state. -/
theorem update_ticket_status_overwrites (db : TicketDB) (tid st : List Char)
    (mit : Option (List Char)) (row : TicketRow) (h : dbFind db tid = some row) :
    (update_ticket_status db tid st mit).2 = true
    ∧ dbStatus (update_ticket_status db tid st mit).1 tid = some st := by
  rw [update_ticket_status_found db tid st mit row h]
  refine ⟨rfl, ?_⟩
  unfold dbStatus
  rw [show ((dbSetFirst db tid ⟨some (metaAfterUpdate row.meta st mit), row.msgs⟩, true) :
      TicketDB × Bool).1 = dbSetFirst db tid ⟨some (metaAfterUpdate row.meta st mit), row.msgs⟩
    from rfl]
  rw [dbFind_dbSetFirst db tid row _ h]
  cases hm : row.meta <;> rfl

/-- C6 witness: overwriting the resolved ticket of `dbC6` with
"escalated" succeeds and stores "escalated". -/
theorem update_ticket_status_overwrites_witness :
    (update_ticket_status dbC6 "t1".toList "escalated".toList none).2 = true
    ∧ dbStatus (update_ticket_status dbC6 "t1".toList "escalated".toList none).1 "t1".toList
        = some "escalated".toList :=
  update_ticket_status_overwrites dbC6 "t1".toList "escalated".toList none
    ⟨some ⟨"resolved".toList, none⟩, []⟩ rfl

/-- C6 counterexample to the claimed invariant: ticket "t1" is in the
terminal status "resolved", yet `update_ticket_status` moves it back
to "processing" and reports success — a transition out of a terminal
state. -/
theorem update_ticket_status_leaves_terminal_cex :
    dbStatus dbC6 "t1".toList = some "resolved".toList
    ∧ (update_ticket_status dbC6 "t1".toList "processing".toList none).2 = true
    ∧ dbStatus (update_ticket_status dbC6 "t1".toList "processing".toList none).1 "t1".toList
        = some "processing".toList :=
  ⟨rfl, rfl, rfl⟩

/-- C7 (amended): `invoke_ticket` performs no terminal-state or
idempotence check — every call, including a repeat call on a ticket
whose earlier run already stored a terminal status, invokes the
supervisor exactly once, appends a fresh "ai" message, and overwrites
the stored status by keyword detection on the new output. -/
theorem invoke_ticket_always_reruns (db : TicketDB) (out tid : List Char)
    (row : TicketRow) (h : dbFind db tid = some row) :
    (invoke_ticket db out tid).supervisor_calls = 1
    ∧ (invoke_ticket db out tid).final_text = out
    ∧ dbMsgs (invoke_ticket db out tid).db tid
        = some (row.msgs ++ [⟨"ai".toList, out⟩])
    ∧ dbStatus (invoke_ticket db out tid).db tid
        = some (if pyIn "escalat".toList (pyLower out)
              || pyIn "billing team".toList (pyLower out)
            then "escalated".toList else "resolved".toList) := by
  have hadd := add_ticket_message_ai db tid out row h
  have hdb1 : (add_ticket_message db tid "ai".toList out).1
      = dbSetFirst db tid ⟨row.meta, row.msgs ++ [⟨"ai".toList, out⟩]⟩ := by rw [hadd]
  have hrow1 : dbFind (add_ticket_message db tid "ai".toList out).1 tid
      = some ⟨row.meta, row.msgs ++ [⟨"ai".toList, out⟩]⟩ := by
    rw [hdb1]
    exact dbFind_dbSetFirst db tid row _ h
  have hupd := update_ticket_status_found (add_ticket_message db tid "ai".toList out).1 tid
    (if pyIn "escalat".toList (pyLower out) || pyIn "billing team".toList (pyLower out)
      then "escalated".toList else "resolved".toList) none
    ⟨row.meta, row.msgs ++ [⟨"ai".toList, out⟩]⟩ hrow1
  have heq : invoke_ticket db out tid
      = ⟨out, (update_ticket_status (add_ticket_message db tid "ai".toList out).1 tid
          (if pyIn "escalat".toList (pyLower out) || pyIn "billing team".toList (pyLower out)
            then "escalated".toList else "resolved".toList) none).1, 1⟩ := rfl
  rw [heq]
  have hdb2 : (update_ticket_status (add_ticket_message db tid "ai".toList out).1 tid
      (if pyIn "escalat".toList (pyLower out) || pyIn "billing team".toList (pyLower out)
        then "escalated".toList else "resolved".toList) none).1
      = dbSetFirst (add_ticket_message db tid "ai".toList out).1 tid
          ⟨some (metaAfterUpdate row.meta
            (if pyIn "escalat".toList (pyLower out) || pyIn "billing team".toList (pyLower out)
              then "escalated".toList else "resolved".toList) none),
           row.msgs ++ [⟨"ai".toList, out⟩]⟩ := by rw [hupd]
  refine ⟨rfl, rfl, ?_, ?_⟩
  · unfold dbMsgs
    rw [show (⟨out, (update_ticket_status (add_ticket_message db tid "ai".toList out).1 tid
        (if pyIn "escalat".toList (pyLower out) || pyIn "billing team".toList (pyLower out)
          then "escalated".toList else "resolved".toList) none).1, 1⟩ : InvokeResult).db
      = (update_ticket_status (add_ticket_message db tid "ai".toList out).1 tid
        (if pyIn "escalat".toList (pyLower out) || pyIn "billing team".toList (pyLower out)
          then "escalated".toList else "resolved".toList) none).1 from rfl]
    rw [hdb2, dbFind_dbSetFirst _ tid ⟨row.meta, row.msgs ++ [⟨"ai".toList, out⟩]⟩ _ hrow1]
    rfl
  · unfold dbStatus
    rw [show (⟨out, (update_ticket_status (add_ticket_message db tid "ai".toList out).1 tid
        (if pyIn "escalat".toList (pyLower out) || pyIn "billing team".toList (pyLower out)
          then "escalated".toList else "resolved".toList) none).1, 1⟩ : InvokeResult).db
      = (update_ticket_status (add_ticket_message db tid "ai".toList out).1 tid
        (if pyIn "escalat".toList (pyLower out) || pyIn "billing team".toList (pyLower out)
          then "escalated".toList else "resolved".toList) none).1 from rfl]
    rw [hdb2, dbFind_dbSetFirst _ tid ⟨row.meta, row.msgs ++ [⟨"ai".toList, out⟩]⟩ _ hrow1]
    cases hm : row.meta <;> rfl

/-- C7 witness: a concrete run on ticket "t7" invokes the supervisor
once, appends the output, and stores "resolved". -/
theorem invoke_ticket_always_reruns_witness :
    (invoke_ticket dbC7 "All sorted.".toList "t7".toList).supervisor_calls = 1
    ∧ (invoke_ticket dbC7 "All sorted.".toList "t7".toList).final_text = "All sorted.".toList
    ∧ dbMsgs (invoke_ticket dbC7 "All sorted.".toList "t7".toList).db "t7".toList
        = some (([] : List PyMessage) ++ [⟨"ai".toList, "All sorted.".toList⟩])
    ∧ dbStatus (invoke_ticket dbC7 "All sorted.".toList "t7".toList).db "t7".toList
        = some (if pyIn "escalat".toList (pyLower "All sorted.".toList)
              || pyIn "billing team".toList (pyLower "All sorted.".toList)
            then "escalated".toList else "resolved".toList) :=
  invoke_ticket_always_reruns dbC7 "All sorted.".toList "t7".toList ⟨none, []⟩ rfl

/-- C7 counterexample: after a first `invoke_ticket` run left ticket
"t7" in the terminal status "resolved", a second identical call still
invokes the supervisor (one call, not zero) and performs a new durable
write (the table changes again), contrary to the claimed idempotence. -/
theorem invoke_ticket_not_idempotent_cex :
    dbStatus (invoke_ticket dbC7 "All sorted.".toList "t7".toList).db "t7".toList
      = some "resolved".toList
    ∧ (invoke_ticket (invoke_ticket dbC7 "All sorted.".toList "t7".toList).db
        "All sorted.".toList "t7".toList).supervisor_calls = 1
    ∧ (invoke_ticket (invoke_ticket dbC7 "All sorted.".toList "t7".toList).db
        "All sorted.".toList "t7".toList).db
      ≠ (invoke_ticket dbC7 "All sorted.".toList "t7".toList).db := by
  refine ⟨rfl, rfl, ?_⟩
  decide

theorem searchRank_score_le {a b : ScoredArticle} (h : searchRank a b) :
    b.relevance_score ≤ a.relevance_score := by
  rcases h with hlt | ⟨heq, _⟩
  · exact hlt.le
  · exact heq.ge

theorem mem_sortInsert (x a : ScoredArticle) (l : List ScoredArticle) :
    x ∈ sortInsert a l ↔ x = a ∨ x ∈ l := by
  induction l with
  | nil => simp [sortInsert]
  | cons b t ih =>
    by_cases hb : b.relevance_score ≤ a.relevance_score
    · simp only [sortInsert, if_pos hb, List.mem_cons]
    · simp only [sortInsert, if_neg hb, List.mem_cons, ih]
      tauto

theorem sortInsert_pairwise (a : ScoredArticle) (l : List ScoredArticle)
    (hl : l.Pairwise searchRank)
    (ha : ∀ b ∈ l, a.relevance_score = b.relevance_score → a.idx < b.idx) :
    (sortInsert a l).Pairwise searchRank := by
  induction l with
  | nil => simp [sortInsert]
  | cons b t ih =>
    rcases List.pairwise_cons.mp hl with ⟨hbt, ht⟩
    by_cases hb : b.relevance_score ≤ a.relevance_score
    · rw [sortInsert, if_pos hb]
      refine List.pairwise_cons.mpr ⟨?_, hl⟩
      intro c hc
      rcases List.mem_cons.mp hc with rfl | hct
      · rcases hb.lt_or_eq with hlt | heq
        · exact Or.inl hlt
        · exact Or.inr ⟨heq.symm, ha c (List.mem_cons_self _ _) heq.symm⟩
      · have hcb : c.relevance_score ≤ b.relevance_score := searchRank_score_le (hbt c hct)
        have hca : c.relevance_score ≤ a.relevance_score := hcb.trans hb
        rcases hca.lt_or_eq with hlt | heq
        · exact Or.inl hlt
        · exact Or.inr ⟨heq.symm, ha c (List.mem_cons_of_mem _ hct) heq.symm⟩
    · rw [sortInsert, if_neg hb]
      refine List.pairwise_cons.mpr
        ⟨?_, ih ht (fun b' hb' => ha b' (List.mem_cons_of_mem _ hb'))⟩
      intro c hc
      rcases (mem_sortInsert c a t).mp hc with rfl | hct
      · exact Or.inl (lt_of_not_le hb)
      · exact hbt c hct

theorem mem_sortByScoreDesc (x : ScoredArticle) (l : List ScoredArticle) :
    x ∈ sortByScoreDesc l ↔ x ∈ l := by
  induction l with
  | nil => simp [sortByScoreDesc]
  | cons a t ih =>
    simp only [sortByScoreDesc, mem_sortInsert, List.mem_cons, ih]

theorem sortByScoreDesc_pairwise (l : List ScoredArticle)
    (h : l.Pairwise (fun a b => a.idx < b.idx)) :
    (sortByScoreDesc l).Pairwise searchRank := by
  induction l with
  | nil => simp [sortByScoreDesc]
  | cons a t ih =>
    rcases List.pairwise_cons.mp h with ⟨hat, ht⟩
    rw [sortByScoreDesc]
    refine sortInsert_pairwise a _ (ih ht) ?_
    intro b hb _
    exact hat b ((mem_sortByScoreDesc b t).mp hb)

theorem scoredListAux_idx_ge (q : List Char) (l : List Article) :
    ∀ (i : ℕ), ∀ x ∈ scoredListAux q i l, i ≤ x.idx := by
  induction l with
  | nil => intro i x hx; simp [scoredListAux] at hx
  | cons a t ih =>
    intro i x hx
    simp only [scoredListAux] at hx
    by_cases hsc : (1:ℚ)/10 < calculate_relevance_score q a
    · rw [if_pos hsc] at hx
      rcases List.mem_cons.mp hx with rfl | hxt
      · exact le_refl i
      · exact (Nat.le_succ i).trans (ih (i + 1) x hxt)
    · rw [if_neg hsc] at hx
      exact (Nat.le_succ i).trans (ih (i + 1) x hx)

theorem scoredListAux_pairwise_idx (q : List Char) (l : List Article) :
    ∀ (i : ℕ), (scoredListAux q i l).Pairwise (fun a b => a.idx < b.idx) := by
  induction l with
  | nil => intro i; simp [scoredListAux]
  | cons a t ih =>
    intro i
    simp only [scoredListAux]
    by_cases hsc : (1:ℚ)/10 < calculate_relevance_score q a
    · rw [if_pos hsc]
      refine List.pairwise_cons.mpr ⟨?_, ih (i + 1)⟩
      intro b hb
      exact lt_of_lt_of_le (Nat.lt_succ_self i) (scoredListAux_idx_ge q t (i + 1) b hb)
    · rw [if_neg hsc]
      exact ih (i + 1)

theorem searchTopScore_take (l : List ScoredArticle) :
    searchTopScore (l.take 3) = searchTopScore l := by
  cases l <;> rfl

/-- C4 (amended): `search_knowledge_base` ranks the candidates that
survive the relevance filter (score strictly above 0.1) by score
descending with ties broken by original input order (first-seen wins),
selects at most the top 3, and sets the confidence to the top
relevance score among the surviving candidates (0.0 when none
survives). The unamended claim fails because candidates scoring at
most 0.1 are dropped before ranking, see the counterexample. -/
theorem search_knowledge_base_ranking (query : List Char) (articles : List Article) :
    (search_knowledge_base query articles).articles
        = (sortByScoreDesc (scoredList query articles)).take 3
    ∧ (search_knowledge_base query articles).articles.Pairwise searchRank
    ∧ (search_knowledge_base query articles).articles.length ≤ 3
    ∧ (∀ x ∈ scoredList query articles,
        x.relevance_score ≤ (search_knowledge_base query articles).confidence)
    ∧ (search_knowledge_base query articles).confidence
        = searchTopScore (sortByScoreDesc (scoredList query articles)) := by
  have hsorted : (sortByScoreDesc (scoredList query articles)).Pairwise searchRank :=
    sortByScoreDesc_pairwise _ (scoredListAux_pairwise_idx query articles 0)
  by_cases hemp : articles.isEmpty = true
  · rcases articles with _ | ⟨a, t⟩
    · refine ⟨rfl, by simp [search_knowledge_base], by simp [search_knowledge_base], ?_, rfl⟩
      intro x hx
      simp [scoredList, scoredListAux] at hx
    · simp at hemp
  · have hsk : search_knowledge_base query articles
        = ⟨(sortByScoreDesc (scoredList query articles)).take 3,
           searchTopScore ((sortByScoreDesc (scoredList query articles)).take 3),
           decide (searchTopScore ((sortByScoreDesc (scoredList query articles)).take 3) < 1/2)
             || ((sortByScoreDesc (scoredList query articles)).take 3).isEmpty⟩ := by
      unfold search_knowledge_base
      rw [if_neg hemp]
    rw [hsk]
    refine ⟨rfl, ?_, ?_, ?_, ?_⟩
    · exact List.Pairwise.sublist (List.take_sublist 3 _) hsorted
    · rw [List.length_take]
      exact min_le_left _ _
    · intro x hx
      have hxs : x ∈ sortByScoreDesc (scoredList query articles) := by
        rw [mem_sortByScoreDesc]
        exact hx
      show x.relevance_score
        ≤ searchTopScore ((sortByScoreDesc (scoredList query articles)).take 3)
      rw [searchTopScore_take]
      rcases hs : sortByScoreDesc (scoredList query articles) with _ | ⟨h0, t0⟩
      · rw [hs] at hxs
        simp at hxs
      · rw [hs] at hxs hsorted
        rcases List.mem_cons.mp hxs with rfl | hxt
        · exact le_refl _
        · exact searchRank_score_le (List.rel_of_pairwise_cons hsorted hxt)
    · exact searchTopScore_take _

/-- C4 counterexample to the unrestricted claim: for the query
"reset", a single candidate article scoring 0.08 (nonzero) is filtered
out, so the ticket's confidence is set to 0.0 rather than to the top
relevance score 0.08 among the candidates. -/
theorem search_knowledge_base_filters_low_scores_cex :
    calculate_relevance_score "reset".toList articleC4 = 8/100
    ∧ (8:ℚ)/100 ≠ 0
    ∧ search_knowledge_base "reset".toList [articleC4]
        = ⟨[], 0, true⟩ := by
  have hs : calculate_relevance_score "reset".toList articleC4 = 8/100 := by
    rw [calculate_relevance_score_as_nat,
      show score_nat "reset".toList articleC4 = 8 from by decide]
    norm_num
  have hkept : scoredList "reset".toList [articleC4] = [] := by
    unfold scoredList
    simp only [scoredListAux]
    rw [if_neg (by rw [hs]; norm_num)]
  refine ⟨hs, by norm_num, ?_⟩
  unfold search_knowledge_base
  rw [if_neg (by decide : ¬(([articleC4] : List Article).isEmpty = true))]
  rw [hkept]
  simp [sortByScoreDesc, searchTopScore]

/-- C4 witness: the ranking theorem instantiated at the query "reset"
and the one-article candidate list. -/
theorem search_knowledge_base_ranking_witness :
    (search_knowledge_base "reset".toList [articleC4]).articles
        = (sortByScoreDesc (scoredList "reset".toList [articleC4])).take 3
    ∧ (search_knowledge_base "reset".toList [articleC4]).articles.Pairwise searchRank
    ∧ (search_knowledge_base "reset".toList [articleC4]).articles.length ≤ 3
    ∧ (∀ x ∈ scoredList "reset".toList [articleC4],
        x.relevance_score ≤ (search_knowledge_base "reset".toList [articleC4]).confidence)
    ∧ (search_knowledge_base "reset".toList [articleC4]).confidence
        = searchTopScore (sortByScoreDesc (scoredList "reset".toList [articleC4])) :=
  search_knowledge_base_ranking "reset".toList [articleC4]
